import Mathlib

/-!
Verification development for the MyEzz unified order service
(`backend/services/orderService.js` and `backend/routes/unifiedRoutes.js`).

The JavaScript `OrderService` class is embedded shallowly:

* the Supabase table `unified_orders` is modelled as an association list
  keyed by `order_id`; a `none` table models the "table absent" condition
  that Supabase reports with error code PGRST205;
* the module-level `inMemoryOrders` Map is a second association list;
* `this.useInMemory` is a boolean field of the engine state;
* ISO-timestamp strings (`new Date().toISOString()`) are modelled by a
  natural-number clock value passed to each operation;
* `Math.random()` is modelled by its 53-bit fraction `n / 2^53`, passed in
  as a natural number `n < 2^53`;
* a thrown `Error` is an `Except.error` carrying the error classified per
  the taxonomy of the spec; every operation returns the engine state it leaves
  behind together with its result, so "no state was modified" is a
  provable equation rather than a typing artifact.
-/

/-! Section: JavaScript number-to-base-36 printing

`Date.now().toString(36)` and `Math.random().toString(36)` are used by the
order-id and verification-code generators.  For a nonnegative integer the
digits are the usual base-36 expansion; for a random fraction `n / 2^53`
the digits after `"0."` are the greedy base-36 expansion of the fraction,
which terminates within 27 digits because `36^27 * n / 2^53` is an integer.
`toUpperCase()` is folded into the digit-to-character map.
-/

/-- Base-36 digit rendered as an uppercase character: `0`-`9` then `A`-`Z`
(the result of the lowercase digits JavaScript prints followed by `.toUpperCase()`). -/
def base36Char (d : Nat) : Char :=
  if d < 10 then Char.ofNat (48 + d) else Char.ofNat (55 + d)

/-- Digits of `n` in base 36, most significant first (fuelled division loop). -/
def natToBase36Core (fuel n : Nat) (acc : List Char) : List Char :=
  match fuel with
  | 0 => acc
  | f + 1 => if n = 0 then acc else natToBase36Core f (n / 36) (base36Char (n % 36) :: acc)

/-- JavaScript `n.toString(36).toUpperCase()` for a nonnegative integer `n`. -/
def natToBase36 (n : Nat) : String :=
  if n = 0 then "0" else String.mk (natToBase36Core (n + 1) n [])

/-- Greedy base-36 expansion of the fraction `num / 2^53` (the digits after
`"0."` in the JavaScript output `x.toString(36)` for `x = num / 2^53`), stopping when
the remainder is zero.  27 digits of fuel exhaust any 53-bit fraction. -/
def base36FracDigits : Nat → Nat → List Nat
  | 0, _ => []
  | _ + 1, 0 => []
  | f + 1, n + 1 => ((n + 1) * 36 / 2 ^ 53) :: base36FracDigits f ((n + 1) * 36 % 2 ^ 53)

/-- JS `generateVerificationCode()`:
`Math.random().toString(36).substring(2, 6).toUpperCase()` — characters 2..5
of `"0.d1d2..."`, i.e. the first four fractional base-36 digits (fewer when
the expansion of the drawn double is shorter), uppercased.  `rand` is the
53-bit fraction of the drawn double. -/
def generateVerificationCode (rand : Nat) : String :=
  String.mk (((base36FracDigits 27 rand).take 4).map base36Char)

/-- JS `generateOrderId()`:
```MYE-${Date.now().toString(36).toUpperCase()}-${Math.random().toString(36).substring(2, 6).toUpperCase()}``` -/
def generateOrderId (nowMs rand : Nat) : String :=
  "MYE-" ++ natToBase36 nowMs ++ "-" ++ String.mk (((base36FracDigits 27 rand).take 4).map base36Char)

/-- JavaScript `s.toUpperCase()` (ASCII code points, which is all the
verification codes use). -/
def jsToUpperCase (s : String) : String :=
  String.mk (s.data.map Char.toUpper)

/-! Section: Data model -/

/-- One line item of an order.  The rider payload reads `quantity` with the
fallback chain `item.quantity || item.qty || 1`, so both spellings are kept. -/
structure OrderItem where
  name : String
  quantity : Option Int := none
  qty : Option Int := none
  price : Int
deriving Repr, DecidableEq

/-- A row of the `unified_orders` table (also the shape stored in the
in-memory Map).  Timestamp columns hold the clock value of the write that
set them; columns a row starts without are `Option`s defaulting to `none`. -/
structure Order where
  id : String
  order_id : String
  customer_id : Option String
  customer_name : String
  customer_phone : String
  customer_email : Option String
  delivery_address : String
  delivery_location : Option String
  restaurant_id : Int
  restaurant_name : String
  items : List OrderItem
  subtotal : Int
  delivery_fee : Int
  platform_fee : Int
  total : Int
  payment_method : String
  payment_status : String
  status : String
  verification_code : String
  created_at : Nat
  updated_at : Nat
  prep_time : Option Int := none
  accepted_at : Option Nat := none
  rejection_reason : Option String := none
  rejected_at : Option Nat := none
  ready_at : Option Nat := none
  picked_up_at : Option Nat := none
  delivered_at : Option Nat := none
  rider_order_id : Option String := none
  assigned_rider_id : Option String := none
  rider_name : Option String := none
  rider_phone : Option String := none
  refund_status : Option String := none
  refund_amount : Option Int := none
  refund_reason : Option String := none
deriving Repr, DecidableEq

/-- The camelCase shape `formatOrderForClient` returns to REST/socket
clients. -/
structure ClientOrder where
  id : String
  orderId : String
  customerId : Option String
  customerName : String
  customerPhone : String
  customerEmail : Option String
  deliveryAddress : String
  deliveryLocation : Option String
  restaurantId : Int
  restaurantName : String
  items : List OrderItem
  subtotal : Int
  deliveryFee : Int
  platformFee : Int
  total : Int
  paymentMethod : String
  paymentStatus : String
  status : String
  verificationCode : String
  prepTime : Option Int
  rejectionReason : Option String
  riderOrderId : Option String
  createdAt : Nat
  acceptedAt : Option Nat
  readyAt : Option Nat
  pickedUpAt : Option Nat
  deliveredAt : Option Nat
  updatedAt : Nat
deriving Repr, DecidableEq

/-- JS `formatOrderForClient(order)`: snake_case row → camelCase client object. -/
def formatOrderForClient (o : Order) : ClientOrder :=
  { id := o.id
    orderId := o.order_id
    customerId := o.customer_id
    customerName := o.customer_name
    customerPhone := o.customer_phone
    customerEmail := o.customer_email
    deliveryAddress := o.delivery_address
    deliveryLocation := o.delivery_location
    restaurantId := o.restaurant_id
    restaurantName := o.restaurant_name
    items := o.items
    subtotal := o.subtotal
    deliveryFee := o.delivery_fee
    platformFee := o.platform_fee
    total := o.total
    paymentMethod := o.payment_method
    paymentStatus := o.payment_status
    status := o.status
    verificationCode := o.verification_code
    prepTime := o.prep_time
    rejectionReason := o.rejection_reason
    riderOrderId := o.rider_order_id
    createdAt := o.created_at
    acceptedAt := o.accepted_at
    readyAt := o.ready_at
    pickedUpAt := o.picked_up_at
    deliveredAt := o.delivered_at
    updatedAt := o.updated_at }

/-- Errors thrown by the service / returned by the routes, classified per the
taxonomy of the spec (§7). `storeError` covers the generic
`Failed to ...: ${error.message}` wrappers around storage failures. -/
inductive OrderError where
  | notFound
  | invalidTransition (status : String)
  | invalidStatus (status : String)
  | invalidCode
  | storeError (op : String)
deriving Repr, DecidableEq

/-- Engine state: the Supabase `unified_orders` table (`none` when the table
is absent, which Supabase reports as PGRST205), the module-level
`inMemoryOrders` Map, and the `this.useInMemory` flag. -/
structure EngineState where
  db : Option (List (String × Order))
  mem : List (String × Order)
  useInMemory : Bool
deriving Repr, DecidableEq

/-- JS `Map.get(key)` / Supabase `.select().eq(order_id, k).single()` on an
association list. -/
def alistGet (l : List (String × Order)) (k : String) : Option Order :=
  (l.find? (fun p => p.1 == k)).map (·.2)

/-- JS `Map.set(key, value)`: replace the existing binding or insert a new one. -/
def alistSet (l : List (String × Order)) (k : String) (v : Order) : List (String × Order) :=
  if (l.find? (fun p => p.1 == k)).isSome then
    l.map (fun p => if p.1 == k then (p.1, v) else p)
  else
    l ++ [(k, v)]

/-- Supabase `.update(...).eq(order_id, k)`: rewrite every matching row. -/
def dbUpdate (l : List (String × Order)) (k : String) (v : Order) : List (String × Order) :=
  l.map (fun p => if p.1 == k then (p.1, v) else p)

/-- Supabase `.select(star).eq(order_id, oid).eq(restaurant_id, rid).single()`. -/
def dbFindOwned (l : List (String × Order)) (oid : String) (rid : Int) : Option Order :=
  (l.find? (fun p => p.1 == oid && p.2.restaurant_id == rid)).map (·.2)

/-! Section: Engine operations -/

/-- The nine recognized statuses (`allowedStatuses` in `updateOrderStatus`). -/
def allowedStatuses : List String :=
  ["pending_restaurant", "preparing", "ready_for_pickup", "rider_assigned",
   "picked_up", "out_for_delivery", "delivered", "rejected", "cancelled"]

/-- The terminal statuses of the §4.1 state machine. -/
def terminalStatuses : List String :=
  ["delivered", "rejected", "cancelled"]

/-- JavaScript `v || d` on a possibly-absent number (`0` is falsy). -/
def jsOrInt (v : Option Int) (d : Int) : Int :=
  match v with
  | none => d
  | some x => if x = 0 then d else x

/-- JavaScript `v || d` on a possibly-absent string (`""` is falsy). -/
def jsOrStr (v : Option String) (d : String) : String :=
  match v with
  | none => d
  | some x => if x = "" then d else x

/-- JavaScript `v || null` on a possibly-absent string. -/
def jsOrNull (v : Option String) : Option String :=
  match v with
  | none => none
  | some x => if x = "" then none else some x

/-- The fields destructured from `orderData` in `createOrder`. -/
structure OrderData where
  customerId : Option String := none
  customerName : String
  customerPhone : String
  customerEmail : Option String := none
  deliveryAddress : String
  deliveryLocation : Option String := none
  restaurantId : Int
  restaurantName : String
  items : List OrderItem
  subtotal : Int
  deliveryFee : Option Int := none
  platformFee : Option Int := none
  total : Int
  paymentMethod : Option String := none
  paymentStatus : Option String := none
deriving Repr, DecidableEq

/-- The nondeterministic inputs `createOrder` draws: the clock
(`Date.now()` in milliseconds) feeding the id prefix and both timestamps,
the two `Math.random()` 53-bit fractions (id suffix, verification code), and
`crypto.randomUUID()`. -/
structure GenInputs where
  nowMs : Nat
  idRand : Nat
  codeRand : Nat
  uuid : String
deriving Repr, DecidableEq

/-- The `newOrder` object built by `createOrder` before it is persisted. -/
def mkNewOrder (od : OrderData) (g : GenInputs) : Order :=
  { id := g.uuid
    order_id := generateOrderId g.nowMs g.idRand
    customer_id := jsOrNull od.customerId
    customer_name := od.customerName
    customer_phone := od.customerPhone
    customer_email := jsOrNull od.customerEmail
    delivery_address := od.deliveryAddress
    delivery_location := od.deliveryLocation
    restaurant_id := od.restaurantId
    restaurant_name := od.restaurantName
    items := od.items
    subtotal := od.subtotal
    delivery_fee := jsOrInt od.deliveryFee 30
    platform_fee := jsOrInt od.platformFee 8
    total := od.total
    payment_method := jsOrStr od.paymentMethod "cash_on_delivery"
    payment_status := jsOrStr od.paymentStatus "pending"
    status := "pending_restaurant"
    verification_code := generateVerificationCode g.codeRand
    created_at := g.nowMs
    updated_at := g.nowMs }

/-- JS `createOrder(orderData)`.  In-memory mode stores into the Map; otherwise
it inserts into the table, falling back (stickily) to the Map when the
insert fails with PGRST205, i.e. when the table is absent. -/
def createOrder (s : EngineState) (od : OrderData) (g : GenInputs) :
    EngineState × Except OrderError ClientOrder :=
  let orderId := generateOrderId g.nowMs g.idRand
  let newOrder := mkNewOrder od g
  if s.useInMemory then
    (⟨s.db, alistSet s.mem orderId newOrder, s.useInMemory⟩,
      .ok (formatOrderForClient newOrder))
  else
    match s.db with
    | none =>
        -- insert error PGRST205: table absent → this.useInMemory = true, store in Map
        (⟨s.db, alistSet s.mem orderId newOrder, true⟩,
          .ok (formatOrderForClient newOrder))
    | some t =>
        (⟨some (t ++ [(orderId, newOrder)]), s.mem, s.useInMemory⟩,
          .ok (formatOrderForClient newOrder))

/-- The delivery-request payload `sendToRiderSystem` builds for the rider
backend (`pickupLocation` is a hard-coded `[0, 0]` point; `dropLocation`
falls back to the same default when the order has no delivery location). -/
structure RiderPayload where
  customerName : String
  customerPhone : String
  pickupAddress : String
  dropAddress : String
  dropLocation : Option String
  items : List (String × Int × Int)
  price : Int
  paymentMethod : String
  notes : String
  myezzOrderId : String
deriving Repr, DecidableEq

/-- JavaScript `item.quantity || item.qty || 1` (`0` is falsy at each step). -/
def itemQty (it : OrderItem) : Int :=
  jsOrInt it.quantity (jsOrInt it.qty 1)

/-- The payload POSTed to `${riderBackendUrl}/api/orders` by
`sendToRiderSystem`. -/
def buildRiderPayload (o : Order) : RiderPayload :=
  { customerName := o.customer_name
    customerPhone := o.customer_phone
    pickupAddress := o.restaurant_name
    dropAddress := o.delivery_address
    dropLocation := o.delivery_location
    items := o.items.map (fun it => (it.name, itemQty it, it.price))
    price := o.total
    paymentMethod := if o.payment_method = "cash_on_delivery" then "cash_on_delivery" else "online"
    notes := "Order ID: " ++ o.order_id ++ " | Verification Code: " ++ o.verification_code
    myezzOrderId := o.order_id }

/-- JS `sendToRiderSystem(order)`: POSTs `buildRiderPayload order` to the rider
backend.  `dispatch` is the outcome of that HTTP call — `some riderOrderId`
on 2xx, `none` on timeout / non-2xx / network error.  On success the table
row gains `rider_order_id` (an unconditional Supabase update whose own error
is never inspected); on failure the error is logged and swallowed, so the
state is returned unchanged and nothing is thrown either way. -/
def sendToRiderSystem (s : EngineState) (o : Order) (dispatch : Option String) (now : Nat) :
    EngineState :=
  match dispatch with
  | none => s
  | some riderOrderId =>
      match s.db with
      | none => s
      | some t =>
          match alistGet t o.order_id with
          | none => s
          | some row =>
              ⟨some (dbUpdate t o.order_id
                  { row with rider_order_id := some riderOrderId, updated_at := now }),
                s.mem, s.useInMemory⟩

/-- JS `acceptOrder(orderId, restaurantId, prepTime)`.  The third component of
the result counts the `sendToRiderSystem` invocations the call performed.
The in-memory branch looks the order up by id only (no `restaurant_id`
check); the table branch filters by both `order_id` and `restaurant_id` and
maps any fetch failure — including an absent table — to `Order not found`. -/
def acceptOrder (s : EngineState) (orderId : String) (restaurantId : Int)
    (prepTime : Int) (now : Nat) (dispatch : Option String) :
    EngineState × Except OrderError ClientOrder × Nat :=
  if s.useInMemory then
    match alistGet s.mem orderId with
    | none => (s, .error .notFound, 0)
    | some order =>
        if order.status = "pending_restaurant" then
          let updated := { order with
            status := "preparing", prep_time := some prepTime,
            accepted_at := some now, updated_at := now }
          let s1 : EngineState := ⟨s.db, alistSet s.mem orderId updated, s.useInMemory⟩
          (sendToRiderSystem s1 updated dispatch now, .ok (formatOrderForClient updated), 1)
        else
          (s, .error (.invalidTransition order.status), 0)
  else
    match s.db with
    | none => (s, .error .notFound, 0)
    | some t =>
        match dbFindOwned t orderId restaurantId with
        | none => (s, .error .notFound, 0)
        | some order =>
            if order.status = "pending_restaurant" then
              let updated := { order with
                status := "preparing", prep_time := some prepTime,
                accepted_at := some now, updated_at := now }
              let s1 : EngineState := ⟨some (dbUpdate t orderId updated), s.mem, s.useInMemory⟩
              (sendToRiderSystem s1 updated dispatch now, .ok (formatOrderForClient updated), 1)
            else
              (s, .error (.invalidTransition order.status), 0)

/-- JS `initiateRefund(orderId, amount, reason)`: records
`refund_status = initiated`, the amount and the reason on the table row
via an unconditional Supabase update (its result is not inspected, so an
absent table or row silently changes nothing). -/
def initiateRefund (s : EngineState) (orderId : String) (amount : Int) (reason : String)
    (now : Nat) : EngineState :=
  match s.db with
  | none => s
  | some t =>
      match alistGet t orderId with
      | none => s
      | some row =>
          ⟨some (dbUpdate t orderId
              { row with refund_status := some "initiated", refund_amount := some amount,
                         refund_reason := some reason, updated_at := now }),
            s.mem, s.useInMemory⟩

/-- JS `rejectOrder(orderId, restaurantId, reason)`.  Same lookup asymmetry as
`acceptOrder`; on success it additionally calls `initiateRefund` exactly
when the (pre-update) order has `payment_method === online &&
payment_status === paid`. -/
def rejectOrder (s : EngineState) (orderId : String) (restaurantId : Int)
    (reason : String) (now : Nat) :
    EngineState × Except OrderError ClientOrder :=
  if s.useInMemory then
    match alistGet s.mem orderId with
    | none => (s, .error .notFound)
    | some order =>
        if order.status = "pending_restaurant" then
          let updated := { order with
            status := "rejected", rejection_reason := some reason,
            rejected_at := some now, updated_at := now }
          let s1 : EngineState := ⟨s.db, alistSet s.mem orderId updated, s.useInMemory⟩
          let s2 := if order.payment_method = "online" && order.payment_status = "paid" then
              initiateRefund s1 orderId order.total reason now
            else s1
          (s2, .ok (formatOrderForClient updated))
        else
          (s, .error (.invalidTransition order.status))
  else
    match s.db with
    | none => (s, .error .notFound)
    | some t =>
        match dbFindOwned t orderId restaurantId with
        | none => (s, .error .notFound)
        | some order =>
            if order.status = "pending_restaurant" then
              let updated := { order with
                status := "rejected", rejection_reason := some reason,
                rejected_at := some now, updated_at := now }
              let s1 : EngineState := ⟨some (dbUpdate t orderId updated), s.mem, s.useInMemory⟩
              let s2 := if order.payment_method = "online" && order.payment_status = "paid" then
                  initiateRefund s1 orderId order.total reason now
                else s1
              (s2, .ok (formatOrderForClient updated))
            else
              (s, .error (.invalidTransition order.status))

/-- The `additionalData` object the routes pass to `updateOrderStatus`: rider
identity fields (rider-assigned webhook) and explicit timestamps (picked-up /
delivered webhooks).  The generic `POST /orders/:orderId/status` route
destructures `const { status, ...additionalData } = req.body`, so a `status`
key never reaches the spread. -/
structure AdditionalData where
  assigned_rider_id : Option String := none
  rider_name : Option String := none
  rider_phone : Option String := none
  picked_up_at : Option Nat := none
  delivered_at : Option Nat := none
deriving Repr, DecidableEq, Inhabited

/-- The JavaScript spread `{ status, updated_at, ...additionalData }` merged
onto the row: a key present in `additionalData` overrides, an absent one
leaves the existing column value alone. -/
def applyAdditionalData (o : Order) (ad : AdditionalData) : Order :=
  { o with
    assigned_rider_id := (ad.assigned_rider_id).orElse (fun _ => o.assigned_rider_id)
    rider_name := (ad.rider_name).orElse (fun _ => o.rider_name)
    rider_phone := (ad.rider_phone).orElse (fun _ => o.rider_phone)
    picked_up_at := (ad.picked_up_at).orElse (fun _ => o.picked_up_at)
    delivered_at := (ad.delivered_at).orElse (fun _ => o.delivered_at) }

/-- The row produced by an `updateOrderStatus` write: status and
`updated_at`, the spread of `additionalData`, then the automatic `ready_at` /
`delivered_at` stamps for those two statuses. -/
def statusUpdatedRow (o : Order) (newStatus : String) (ad : AdditionalData) (now : Nat) :
    Order :=
  let o1 := applyAdditionalData { o with status := newStatus, updated_at := now } ad
  if newStatus = "ready_for_pickup" then { o1 with ready_at := some now }
  else if newStatus = "delivered" then { o1 with delivered_at := some now }
  else o1

/-- JS `updateOrderStatus(orderId, newStatus, additionalData)`.  Validates
`newStatus` against the nine-member set and otherwise writes it without any
look at the current status.  Note: this function has no in-memory branch —
it always addresses the Supabase table, and wraps any storage failure
(absent table, no matching row for `.single()`) in a generic thrown error. -/
def updateOrderStatus (s : EngineState) (orderId newStatus : String)
    (additionalData : AdditionalData) (now : Nat) :
    EngineState × Except OrderError ClientOrder :=
  if newStatus ∈ allowedStatuses then
    match s.db with
    | none => (s, .error (.storeError "update"))
    | some t =>
        match alistGet t orderId with
        | none => (s, .error (.storeError "update"))
        | some o =>
            let o2 := statusUpdatedRow o newStatus additionalData now
            (⟨some (dbUpdate t orderId o2), s.mem, s.useInMemory⟩,
              .ok (formatOrderForClient o2))
  else
    (s, .error (.invalidStatus newStatus))

/-- JS `markReadyForPickup(orderId, restaurantId)`: fetches the owned row from
the table (no in-memory branch), requires status `preparing`, then delegates
to `updateOrderStatus(orderId, ready_for_pickup)`. -/
def markReadyForPickup (s : EngineState) (orderId : String) (restaurantId : Int)
    (now : Nat) : EngineState × Except OrderError ClientOrder :=
  match s.db with
  | none => (s, .error .notFound)
  | some t =>
      match dbFindOwned t orderId restaurantId with
      | none => (s, .error .notFound)
      | some order =>
          if order.status = "preparing" then
            updateOrderStatus s orderId "ready_for_pickup" {} now
          else
            (s, .error (.invalidTransition order.status))

/-- JS `getOrderById(orderId)`.  A PGRST205 fetch failure (absent table) flips
`this.useInMemory` and retries against the Map; any other failure is
`Order not found`. -/
def getOrderById (s : EngineState) (orderId : String) :
    EngineState × Except OrderError ClientOrder :=
  if s.useInMemory then
    match alistGet s.mem orderId with
    | none => (s, .error .notFound)
    | some o => (s, .ok (formatOrderForClient o))
  else
    match s.db with
    | none =>
        match alistGet s.mem orderId with
        | none => (⟨s.db, s.mem, true⟩, .error .notFound)
        | some o => (⟨s.db, s.mem, true⟩, .ok (formatOrderForClient o))
    | some t =>
        match alistGet t orderId with
        | none => (s, .error .notFound)
        | some o => (s, .ok (formatOrderForClient o))

/-- The `status` argument of `getRestaurantOrders`: absent, a single status,
or an array of statuses. -/
inductive StatusFilter where
  | noFilter
  | one (st : String)
  | many (sts : List String)
deriving Repr, DecidableEq

/-- Descending insertion by `created_at` (the JS comparator
`(a, b) => new Date(b.created_at) - new Date(a.created_at)`). -/
def insertByCreatedDesc (o : Order) : List Order → List Order
  | [] => [o]
  | x :: xs =>
      if x.created_at ≤ o.created_at then o :: x :: xs
      else x :: insertByCreatedDesc o xs

/-- Sort newest-first by `created_at`. -/
def sortByCreatedDesc : List Order → List Order
  | [] => []
  | x :: xs => insertByCreatedDesc x (sortByCreatedDesc xs)

/-- The restaurant-orders query over a store snapshot: filter by
`restaurant_id`, optional status filter, newest-first, first `limit`,
client-shaped. -/
def restaurantOrdersFrom (rows : List (String × Order)) (restaurantId : Int)
    (status : StatusFilter) (limit : Nat) : List ClientOrder :=
  let orders := (rows.map (·.2)).filter (fun o => o.restaurant_id == restaurantId)
  let orders := match status with
    | .noFilter => orders
    | .one st => orders.filter (fun o => o.status == st)
    | .many sts => orders.filter (fun o => sts.contains o.status)
  ((sortByCreatedDesc orders).take limit).map formatOrderForClient

/-- JS `getRestaurantOrders(restaurantId, status, limit)`.  A PGRST205 failure
flips `this.useInMemory` and recurses into the in-memory branch. -/
def getRestaurantOrders (s : EngineState) (restaurantId : Int)
    (status : StatusFilter) (limit : Nat) :
    EngineState × Except OrderError (List ClientOrder) :=
  if s.useInMemory then
    (s, .ok (restaurantOrdersFrom s.mem restaurantId status limit))
  else
    match s.db with
    | none =>
        (⟨s.db, s.mem, true⟩, .ok (restaurantOrdersFrom s.mem restaurantId status limit))
    | some t =>
        (s, .ok (restaurantOrdersFrom t restaurantId status limit))

/-- The customer-orders query over a store snapshot. -/
def customerOrdersFrom (rows : List (String × Order)) (customerId : String)
    (limit : Nat) : List ClientOrder :=
  let orders := (rows.map (·.2)).filter (fun o => o.customer_id == some customerId)
  ((sortByCreatedDesc orders).take limit).map formatOrderForClient

/-- JS `getCustomerOrders(customerId, limit)` (no PGRST205 fallback here: a
failing query simply throws). -/
def getCustomerOrders (s : EngineState) (customerId : String) (limit : Nat) :
    EngineState × Except OrderError (List ClientOrder) :=
  if s.useInMemory then
    (s, .ok (customerOrdersFrom s.mem customerId limit))
  else
    match s.db with
    | none => (s, .error (.storeError "fetchCustomerOrders"))
    | some t => (s, .ok (customerOrdersFrom t customerId limit))

/-- JS `POST /api/unified/orders/:orderId/delivered` (unifiedRoutes.js).  The
request body field `verificationCode` is `Option String`; the JavaScript test
`if (verificationCode && ...)` treats an absent or empty string as falsy and
skips the comparison entirely.  A present, non-empty code is compared —
uppercased — against the stored code; mismatch answers 400
`Invalid verification code` without touching the order. -/
def deliveredRoute (s : EngineState) (orderId : String)
    (verificationCode : Option String) (now : Nat) :
    EngineState × Except OrderError ClientOrder :=
  match getOrderById s orderId with
  | (s1, .error e) => (s1, .error e)
  | (s1, .ok order) =>
      let codeMismatch := match verificationCode with
        | none => false
        | some c => c != "" && order.verificationCode != jsToUpperCase c
      if codeMismatch then
        (s1, .error .invalidCode)
      else
        updateOrderStatus s1 orderId "delivered" { delivered_at := some now } now

/-! Section: The engine as a transition system (for whole-lifecycle invariants) -/

/-- One invocation of a state-touching engine operation, with all of its
inputs (the read-only operations are included because `getOrderById` and
`getRestaurantOrders` can flip the `useInMemory` flag). -/
inductive EngineOp where
  | create (od : OrderData) (g : GenInputs)
  | accept (orderId : String) (restaurantId : Int) (prepTime : Int) (now : Nat)
      (dispatch : Option String)
  | reject (orderId : String) (restaurantId : Int) (reason : String) (now : Nat)
  | markReady (orderId : String) (restaurantId : Int) (now : Nat)
  | updateStatus (orderId newStatus : String) (ad : AdditionalData) (now : Nat)
  | getById (orderId : String)
  | getForRestaurant (restaurantId : Int) (f : StatusFilter) (limit : Nat)
  | getForCustomer (customerId : String) (limit : Nat)

/-- The engine state left behind by one operation. -/
def engineStep (op : EngineOp) (s : EngineState) : EngineState :=
  match op with
  | .create od g => (createOrder s od g).1
  | .accept oid rid pt now d => (acceptOrder s oid rid pt now d).1
  | .reject oid rid reason now => (rejectOrder s oid rid reason now).1
  | .markReady oid rid now => (markReadyForPickup s oid rid now).1
  | .updateStatus oid ns ad now => (updateOrderStatus s oid ns ad now).1
  | .getById oid => (getOrderById s oid).1
  | .getForRestaurant rid f lim => (getRestaurantOrders s rid f lim).1
  | .getForCustomer cid lim => (getCustomerOrders s cid lim).1

/-- Every row of a store snapshot has a status in the nine-member set. -/
def rowsOk (l : List (String × Order)) : Prop :=
  ∀ p ∈ l, p.2.status ∈ allowedStatuses

/-- The rows of the table, empty when the table is absent. -/
def dbRows (s : EngineState) : List (String × Order) :=
  match s.db with
  | none => []
  | some t => t

/-- Every order stored anywhere (table or Map) has a status in the
nine-member recognized set. -/
def statusOk (s : EngineState) : Prop :=
  rowsOk (dbRows s) ∧ rowsOk s.mem

/-- The order `acceptOrder`/`rejectOrder` will operate on in state `s`:
by id alone in the in-memory branch, by id and owner in the table branch. -/
def acceptLookup (s : EngineState) (orderId : String) (restaurantId : Int) :
    Option Order :=
  if s.useInMemory then
    alistGet s.mem orderId
  else
    match s.db with
    | none => none
    | some t => dbFindOwned t orderId restaurantId

/-- The row written by a successful `acceptOrder` (both storage branches). -/
def acceptUpdated (o : Order) (prepTime : Int) (now : Nat) : Order :=
  { o with status := "preparing", prep_time := some prepTime,
           accepted_at := some now, updated_at := now }

/-- The row written by a successful `rejectOrder` (both storage branches),
before any refund recording. -/
def rejectUpdated (o : Order) (reason : String) (now : Nat) : Order :=
  { o with status := "rejected", rejection_reason := some reason,
           rejected_at := some now, updated_at := now }

/-- The uppercase base-36 alphabet `0-9A-Z` — every character
`Math.random().toString(36).toUpperCase()` can produce.  Note it contains
the ambiguous characters `0`, `O`, `1`, `I` and `L`. -/
def base36UpperAlphabet : List Char :=
  "0123456789ABCDEFGHIJKLMNOPQRSTUVWXYZ".toList

/-! Section: concrete fixtures used by witnesses and counterexamples -/

/-- A concrete pending cash order owned by restaurant 1. -/
def exOrder : Order :=
  { id := "uuid-1"
    order_id := "MYE-1-AAAA"
    customer_id := some "cust-1"
    customer_name := "Asha"
    customer_phone := "9999999999"
    customer_email := none
    delivery_address := "12 Main St"
    delivery_location := none
    restaurant_id := 1
    restaurant_name := "Testaurant"
    items := [{ name := "Test Item", quantity := some 2, price := 150 }]
    subtotal := 300
    delivery_fee := 30
    platform_fee := 8
    total := 338
    payment_method := "cash_on_delivery"
    payment_status := "pending"
    status := "pending_restaurant"
    verification_code := "AB12"
    created_at := 1
    updated_at := 1 }

/-- The same order paid online (for the refund-path witnesses). -/
def exOrderPaid : Order :=
  { exOrder with payment_method := "online", payment_status := "paid" }

/-- A concrete `orderData` matching `exOrder`. -/
def exOrderData : OrderData :=
  { customerId := some "cust-1"
    customerName := "Asha"
    customerPhone := "9999999999"
    deliveryAddress := "12 Main St"
    restaurantId := 1
    restaurantName := "Testaurant"
    items := [{ name := "Test Item", quantity := some 2, price := 150 }]
    subtotal := 300
    total := 338 }

/-- Concrete generator draws: the verification-code random fraction is
`0.6875 = 6192449487634432 / 2^53`, whose base-36 expansion is `0.or`
(digits 24, 27), so the generated code is the 2-character string `OR`. -/
def exGen : GenInputs :=
  { nowMs := 1700000000000
    idRand := 6192449487634432
    codeRand := 6192449487634432
    uuid := "uuid-2" }

/-! Section: store-level lemmas -/

lemma find?_map_keyUpdate (l : List (String × Order)) (k : String) (v : Order) :
    (l.map (fun p => if p.1 == k then (p.1, v) else p)).find? (fun p => p.1 == k)
      = (l.find? (fun p => p.1 == k)).map (fun p => (p.1, v)) := by
  induction l with
  | nil => rfl
  | cons p ps ih =>
    by_cases h : (p.1 == k) = true
    · simp only [List.map_cons, if_pos h, List.find?, h]
      simp [h]
    · have hb : (p.1 == k) = false := by simpa using h
      simp only [List.map_cons, if_neg h, List.find?, hb, ih]
      simp [hb]

lemma alistGet_dbUpdate_self (l : List (String × Order)) (k : String) (v : Order)
    (h : (alistGet l k).isSome) : alistGet (dbUpdate l k v) k = some v := by
  unfold alistGet dbUpdate at *
  rw [find?_map_keyUpdate]
  cases hf : l.find? (fun p => p.1 == k) with
  | none => rw [hf] at h; simp at h
  | some q => simp

lemma alistGet_alistSet_self (l : List (String × Order)) (k : String) (v : Order) :
    alistGet (alistSet l k v) k = some v := by
  unfold alistSet
  split
  · rename_i hsome
    show alistGet (dbUpdate l k v) k = some v
    exact alistGet_dbUpdate_self l k v (by unfold alistGet; simpa using hsome)
  · rename_i hnone
    unfold alistGet at *
    induction l with
    | nil => simp [List.find?]
    | cons p ps ih =>
      by_cases h : (p.1 == k) = true
      · exfalso
        apply hnone
        simp [List.find?, h]
      · simp only [List.cons_append]
        simp only [List.find?, h] at hnone ⊢
        exact ih (by simpa using hnone)

lemma alistGet_isSome_of_dbFindOwned (l : List (String × Order)) (oid : String) (rid : Int)
    (o : Order) (h : dbFindOwned l oid rid = some o) : (alistGet l oid).isSome := by
  unfold dbFindOwned at h
  unfold alistGet
  induction l with
  | nil => simp at h
  | cons p ps ih =>
    by_cases hk : (p.1 == oid) = true
    · simp [List.find?, hk]
    · have hpred : (p.1 == oid && p.2.restaurant_id == rid) = false := by
        simp [hk]
      simp only [List.find?, hpred] at h
      simp only [List.find?, hk]
      exact ih h

lemma rowsOk_dbUpdate {l : List (String × Order)} {k : String} {v : Order}
    (h : rowsOk l) (hv : v.status ∈ allowedStatuses) : rowsOk (dbUpdate l k v) := by
  intro p hp
  rw [dbUpdate, List.mem_map] at hp
  obtain ⟨q, hq, hpq⟩ := hp
  by_cases hk : (q.1 == k) = true
  · rw [if_pos hk] at hpq
    rw [← hpq]
    exact hv
  · rw [if_neg hk] at hpq
    rw [← hpq]
    exact h q hq

lemma rowsOk_alistSet {l : List (String × Order)} {k : String} {v : Order}
    (h : rowsOk l) (hv : v.status ∈ allowedStatuses) : rowsOk (alistSet l k v) := by
  unfold alistSet
  split
  · exact rowsOk_dbUpdate h hv
  · intro p hp
    rcases List.mem_append.mp hp with h1 | h2
    · exact h p h1
    · rw [List.mem_singleton.mp h2]
      exact hv

lemma rowsOk_append_single {l : List (String × Order)} {k : String} {v : Order}
    (h : rowsOk l) (hv : v.status ∈ allowedStatuses) : rowsOk (l ++ [(k, v)]) := by
  intro p hp
  rcases List.mem_append.mp hp with h1 | h2
  · exact h p h1
  · rw [List.mem_singleton.mp h2]
    exact hv

lemma rowsOk_status_of_alistGet {l : List (String × Order)} {k : String} {o : Order}
    (h : rowsOk l) (hg : alistGet l k = some o) : o.status ∈ allowedStatuses := by
  unfold alistGet at hg
  cases hf : l.find? (fun p => p.1 == k) with
  | none => rw [hf] at hg; simp at hg
  | some q =>
    rw [hf] at hg
    simp at hg
    rw [← hg]
    exact h q (List.mem_of_find?_eq_some hf)

lemma rowsOk_status_of_dbFindOwned {l : List (String × Order)} {oid : String} {rid : Int}
    {o : Order} (h : rowsOk l) (hg : dbFindOwned l oid rid = some o) :
    o.status ∈ allowedStatuses := by
  unfold dbFindOwned at hg
  cases hf : l.find? (fun p => p.1 == oid && p.2.restaurant_id == rid) with
  | none => rw [hf] at hg; simp at hg
  | some q =>
    rw [hf] at hg
    simp at hg
    rw [← hg]
    exact h q (List.mem_of_find?_eq_some hf)

/-! Section: preservation lemmas for the state-machine invariant -/

lemma statusUpdatedRow_status (o : Order) (ns : String) (ad : AdditionalData) (now : Nat) :
    (statusUpdatedRow o ns ad now).status = ns := by
  unfold statusUpdatedRow
  split
  · rfl
  · split
    · rfl
    · rfl

lemma rowsOk_of_db_eq {s : EngineState} {t : List (String × Order)}
    (h : statusOk s) (hdb : s.db = some t) : rowsOk t := by
  have h1 := h.1
  unfold dbRows at h1
  rw [hdb] at h1
  exact h1

lemma statusOk_sendToRiderSystem {s : EngineState} {o : Order} {d : Option String} {now : Nat}
    (h : statusOk s) : statusOk (sendToRiderSystem s o d now) := by
  unfold sendToRiderSystem
  split
  · exact h
  · split
    · exact h
    · split
      · exact h
      · rename_i a1 a2 a3 t hdb a4 row hget
        have h1 : rowsOk t := rowsOk_of_db_eq h hdb
        have hstat : row.status ∈ allowedStatuses := rowsOk_status_of_alistGet h1 hget
        refine ⟨?_, h.2⟩
        show rowsOk (dbUpdate t o.order_id _)
        exact rowsOk_dbUpdate h1 hstat

lemma statusOk_initiateRefund {s : EngineState} {oid : String} {amount : Int}
    {reason : String} {now : Nat} (h : statusOk s) :
    statusOk (initiateRefund s oid amount reason now) := by
  unfold initiateRefund
  split
  · exact h
  · split
    · exact h
    · rename_i a1 t hdb a2 row hget
      have h1 : rowsOk t := rowsOk_of_db_eq h hdb
      have hstat : row.status ∈ allowedStatuses := rowsOk_status_of_alistGet h1 hget
      refine ⟨?_, h.2⟩
      show rowsOk (dbUpdate t oid _)
      exact rowsOk_dbUpdate h1 hstat

lemma statusOk_updateOrderStatus {s : EngineState} {oid ns : String} {ad : AdditionalData}
    {now : Nat} (h : statusOk s) : statusOk (updateOrderStatus s oid ns ad now).1 := by
  unfold updateOrderStatus
  split
  · rename_i hns
    split
    · exact h
    · split
      · exact h
      · rename_i a1 t hdb a2 o hget
        have h1 : rowsOk t := rowsOk_of_db_eq h hdb
        refine ⟨?_, h.2⟩
        show rowsOk (dbUpdate t oid (statusUpdatedRow o ns ad now))
        apply rowsOk_dbUpdate h1
        rw [statusUpdatedRow_status]
        exact hns
  · exact h

/-! Section: reduction lemmas for acceptOrder / rejectOrder / markReadyForPickup -/

lemma acceptOrder_not_pending {s : EngineState} {oid : String} {rid : Int} {pt : Int}
    {now : Nat} {d : Option String} {o : Order}
    (hfind : acceptLookup s oid rid = some o)
    (hst : o.status ≠ "pending_restaurant") :
    acceptOrder s oid rid pt now d = (s, .error (.invalidTransition o.status), 0) := by
  unfold acceptLookup at hfind
  by_cases hu : s.useInMemory = true
  · simp only [hu, if_true] at hfind
    simp [acceptOrder, hu, hfind, hst]
  · have hb : s.useInMemory = false := by simpa using hu
    rw [hb] at hfind
    simp only [Bool.false_eq_true, if_false] at hfind
    cases hdb : s.db with
    | none => rw [hdb] at hfind; simp at hfind
    | some t =>
        rw [hdb] at hfind
        simp only [] at hfind
        simp [acceptOrder, hb, hdb, hfind, hst]

lemma acceptOrder_pending_mem {s : EngineState} {oid : String} {rid : Int} {pt : Int}
    {now : Nat} {d : Option String} {o : Order}
    (hu : s.useInMemory = true) (hfind : alistGet s.mem oid = some o)
    (hst : o.status = "pending_restaurant") :
    (acceptOrder s oid rid pt now d).2
      = (.ok (formatOrderForClient (acceptUpdated o pt now)), 1) := by
  simp [acceptOrder, hu, hfind, hst, acceptUpdated]

lemma acceptOrder_pending_db {s : EngineState} {t : List (String × Order)} {oid : String}
    {rid : Int} {pt : Int} {now : Nat} {d : Option String} {o : Order}
    (hu : s.useInMemory = false) (hdb : s.db = some t)
    (hfind : dbFindOwned t oid rid = some o)
    (hst : o.status = "pending_restaurant") :
    (acceptOrder s oid rid pt now d).2
      = (.ok (formatOrderForClient (acceptUpdated o pt now)), 1) := by
  simp [acceptOrder, hu, hdb, hfind, hst, acceptUpdated]

lemma acceptOrder_mem_missing {s : EngineState} {oid : String} {rid : Int} {pt : Int}
    {now : Nat} {d : Option String}
    (hu : s.useInMemory = true) (hfind : alistGet s.mem oid = none) :
    acceptOrder s oid rid pt now d = (s, .error .notFound, 0) := by
  simp [acceptOrder, hu, hfind]

lemma acceptOrder_db_missing {s : EngineState} {t : List (String × Order)} {oid : String}
    {rid : Int} {pt : Int} {now : Nat} {d : Option String}
    (hu : s.useInMemory = false) (hdb : s.db = some t)
    (hfind : dbFindOwned t oid rid = none) :
    acceptOrder s oid rid pt now d = (s, .error .notFound, 0) := by
  simp [acceptOrder, hu, hdb, hfind]

lemma rejectOrder_not_pending {s : EngineState} {oid : String} {rid : Int}
    {reason : String} {now : Nat} {o : Order}
    (hfind : acceptLookup s oid rid = some o)
    (hst : o.status ≠ "pending_restaurant") :
    rejectOrder s oid rid reason now = (s, .error (.invalidTransition o.status)) := by
  unfold acceptLookup at hfind
  by_cases hu : s.useInMemory = true
  · simp only [hu, if_true] at hfind
    simp [rejectOrder, hu, hfind, hst]
  · have hb : s.useInMemory = false := by simpa using hu
    rw [hb] at hfind
    simp only [Bool.false_eq_true, if_false] at hfind
    cases hdb : s.db with
    | none => rw [hdb] at hfind; simp at hfind
    | some t =>
        rw [hdb] at hfind
        simp only [] at hfind
        simp [rejectOrder, hb, hdb, hfind, hst]

lemma markReadyForPickup_not_preparing {s : EngineState} {t : List (String × Order)}
    {oid : String} {rid : Int} {now : Nat} {o : Order}
    (hdb : s.db = some t) (hfind : dbFindOwned t oid rid = some o)
    (hst : o.status ≠ "preparing") :
    markReadyForPickup s oid rid now = (s, .error (.invalidTransition o.status)) := by
  simp [markReadyForPickup, hdb, hfind, hst]

lemma rejectOrder_mem_missing {s : EngineState} {oid : String} {rid : Int}
    {reason : String} {now : Nat}
    (hu : s.useInMemory = true) (hget : alistGet s.mem oid = none) :
    rejectOrder s oid rid reason now = (s, .error .notFound) := by
  simp [rejectOrder, hu, hget]

lemma rejectOrder_pending_db {s : EngineState} {t : List (String × Order)} {oid : String}
    {rid : Int} {reason : String} {now : Nat} {o : Order}
    (hu : s.useInMemory = false) (hdb : s.db = some t)
    (hfind : dbFindOwned t oid rid = some o)
    (hst : o.status = "pending_restaurant") :
    rejectOrder s oid rid reason now =
      ((if o.payment_method = "online" && o.payment_status = "paid" then
          initiateRefund ⟨some (dbUpdate t oid (rejectUpdated o reason now)), s.mem, s.useInMemory⟩
            oid o.total reason now
        else ⟨some (dbUpdate t oid (rejectUpdated o reason now)), s.mem, s.useInMemory⟩),
        .ok (formatOrderForClient (rejectUpdated o reason now))) := by
  simp [rejectOrder, hu, hdb, hfind, hst, rejectUpdated]

lemma rejectOrder_pending_mem {s : EngineState} {oid : String} {rid : Int}
    {reason : String} {now : Nat} {o : Order}
    (hu : s.useInMemory = true) (hget : alistGet s.mem oid = some o)
    (hst : o.status = "pending_restaurant") :
    rejectOrder s oid rid reason now =
      ((if o.payment_method = "online" && o.payment_status = "paid" then
          initiateRefund ⟨s.db, alistSet s.mem oid (rejectUpdated o reason now), s.useInMemory⟩
            oid o.total reason now
        else ⟨s.db, alistSet s.mem oid (rejectUpdated o reason now), s.useInMemory⟩),
        .ok (formatOrderForClient (rejectUpdated o reason now))) := by
  simp [rejectOrder, hu, hget, hst, rejectUpdated]

lemma initiateRefund_mem (s : EngineState) (oid : String) (amount : Int) (reason : String)
    (now : Nat) : (initiateRefund s oid amount reason now).mem = s.mem := by
  unfold initiateRefund
  split
  · rfl
  · split
    · rfl
    · rfl

lemma initiateRefund_db {s : EngineState} {t : List (String × Order)} {oid : String}
    {amount : Int} {reason : String} {now : Nat} {row : Order}
    (hdb : s.db = some t) (hget : alistGet t oid = some row) :
    initiateRefund s oid amount reason now =
      ⟨some (dbUpdate t oid
          { row with refund_status := some "initiated", refund_amount := some amount,
                     refund_reason := some reason, updated_at := now }),
        s.mem, s.useInMemory⟩ := by
  simp [initiateRefund, hdb, hget]

lemma updateOrderStatus_invalid {s : EngineState} {oid ns : String} {ad : AdditionalData}
    {now : Nat} (h : ns ∉ allowedStatuses) :
    updateOrderStatus s oid ns ad now = (s, .error (.invalidStatus ns)) := by
  simp [updateOrderStatus, h]

lemma updateOrderStatus_found {s : EngineState} {t : List (String × Order)} {oid ns : String}
    {ad : AdditionalData} {now : Nat} {o : Order}
    (hns : ns ∈ allowedStatuses) (hdb : s.db = some t) (hget : alistGet t oid = some o) :
    updateOrderStatus s oid ns ad now =
      (⟨some (dbUpdate t oid (statusUpdatedRow o ns ad now)), s.mem, s.useInMemory⟩,
        .ok (formatOrderForClient (statusUpdatedRow o ns ad now))) := by
  simp [updateOrderStatus, hns, hdb, hget]

lemma updateOrderStatus_noTable {s : EngineState} {oid ns : String} {ad : AdditionalData}
    {now : Nat} (hns : ns ∈ allowedStatuses) (hdb : s.db = none) :
    updateOrderStatus s oid ns ad now = (s, .error (.storeError "update")) := by
  simp [updateOrderStatus, hns, hdb]

lemma markReadyForPickup_noTable {s : EngineState} {oid : String} {rid : Int} {now : Nat}
    (hdb : s.db = none) :
    markReadyForPickup s oid rid now = (s, .error .notFound) := by
  simp [markReadyForPickup, hdb]

lemma getOrderById_db_found {s : EngineState} {t : List (String × Order)} {oid : String}
    {o : Order} (hu : s.useInMemory = false) (hdb : s.db = some t)
    (hget : alistGet t oid = some o) :
    getOrderById s oid = (s, .ok (formatOrderForClient o)) := by
  simp [getOrderById, hu, hdb, hget]

lemma getOrderById_mem_found {s : EngineState} {oid : String} {o : Order}
    (hu : s.useInMemory = true) (hget : alistGet s.mem oid = some o) :
    getOrderById s oid = (s, .ok (formatOrderForClient o)) := by
  simp [getOrderById, hu, hget]

lemma getOrderById_mem_missing {s : EngineState} {oid : String}
    (hu : s.useInMemory = true) (hget : alistGet s.mem oid = none) :
    getOrderById s oid = (s, .error .notFound) := by
  simp [getOrderById, hu, hget]

lemma createOrder_result (s : EngineState) (od : OrderData) (g : GenInputs) :
    (createOrder s od g).2 = .ok (formatOrderForClient (mkNewOrder od g)) := by
  obtain ⟨db, mem, flag⟩ := s
  cases flag
  · cases db <;> rfl
  · rfl

lemma createOrder_mem (s : EngineState) (od : OrderData) (g : GenInputs)
    (hu : s.useInMemory = true) :
    (createOrder s od g).1
      = ⟨s.db, alistSet s.mem (generateOrderId g.nowMs g.idRand) (mkNewOrder od g),
          s.useInMemory⟩ := by
  simp [createOrder, hu]

/-! Section: the useInMemory flag is never reset once set -/

lemma sendToRiderSystem_flag (s : EngineState) (o : Order) (d : Option String) (now : Nat) :
    (sendToRiderSystem s o d now).useInMemory = s.useInMemory := by
  unfold sendToRiderSystem
  split
  · rfl
  · split
    · rfl
    · split
      · rfl
      · rfl

lemma initiateRefund_flag (s : EngineState) (oid : String) (amount : Int) (reason : String)
    (now : Nat) : (initiateRefund s oid amount reason now).useInMemory = s.useInMemory := by
  unfold initiateRefund
  split
  · rfl
  · split
    · rfl
    · rfl

lemma updateOrderStatus_flag (s : EngineState) (oid ns : String) (ad : AdditionalData)
    (now : Nat) : (updateOrderStatus s oid ns ad now).1.useInMemory = s.useInMemory := by
  unfold updateOrderStatus
  split
  · split
    · rfl
    · split
      · rfl
      · rfl
  · rfl

lemma markReadyForPickup_flag (s : EngineState) (oid : String) (rid : Int) (now : Nat) :
    (markReadyForPickup s oid rid now).1.useInMemory = s.useInMemory := by
  unfold markReadyForPickup
  split
  · rfl
  · split
    · rfl
    · split
      · rw [updateOrderStatus_flag]
      · rfl

lemma acceptOrder_flag (s : EngineState) (oid : String) (rid : Int) (pt : Int) (now : Nat)
    (d : Option String) : (acceptOrder s oid rid pt now d).1.useInMemory = s.useInMemory := by
  unfold acceptOrder
  split
  · split
    · rfl
    · split
      · rw [sendToRiderSystem_flag]
      · rfl
  · split
    · rfl
    · split
      · rfl
      · split
        · rw [sendToRiderSystem_flag]
        · rfl

lemma rejectOrder_flag (s : EngineState) (oid : String) (rid : Int) (reason : String)
    (now : Nat) : (rejectOrder s oid rid reason now).1.useInMemory = s.useInMemory := by
  unfold rejectOrder
  split
  · split
    · rfl
    · split
      · split
        · rw [initiateRefund_flag]
        · rfl
      · rfl
  · split
    · rfl
    · split
      · rfl
      · split
        · split
          · rw [initiateRefund_flag]
          · rfl
        · rfl

lemma engineStep_flag_sticky (op : EngineOp) (s : EngineState)
    (h : s.useInMemory = true) : (engineStep op s).useInMemory = true := by
  cases op with
  | create od g => rw [engineStep, createOrder_mem s od g h]; exact h
  | accept oid rid pt now d => rw [engineStep, acceptOrder_flag]; exact h
  | reject oid rid reason now => rw [engineStep, rejectOrder_flag]; exact h
  | markReady oid rid now => rw [engineStep, markReadyForPickup_flag]; exact h
  | updateStatus oid ns ad now => rw [engineStep, updateOrderStatus_flag]; exact h
  | getById oid =>
      rw [engineStep]
      unfold getOrderById
      rw [h]
      simp only [if_true]
      split
      · exact h
      · exact h
  | getForRestaurant rid f lim =>
      rw [engineStep]
      unfold getRestaurantOrders
      rw [h]
      simp only [if_true]
      exact h
  | getForCustomer cid lim =>
      rw [engineStep]
      unfold getCustomerOrders
      rw [h]
      simp only [if_true]
      exact h

/-! Section: every operation preserves the nine-member status invariant -/

lemma pending_mem_allowed : ("pending_restaurant" : String) ∈ allowedStatuses := by decide

lemma preparing_mem_allowed : ("preparing" : String) ∈ allowedStatuses := by decide

lemma rejected_mem_allowed : ("rejected" : String) ∈ allowedStatuses := by decide

lemma statusOk_createOrder {s : EngineState} {od : OrderData} {g : GenInputs}
    (h : statusOk s) : statusOk (createOrder s od g).1 := by
  unfold createOrder
  split
  · exact ⟨h.1, rowsOk_alistSet h.2 pending_mem_allowed⟩
  · split
    · exact ⟨h.1, rowsOk_alistSet h.2 pending_mem_allowed⟩
    · rename_i t hdb
      refine ⟨?_, h.2⟩
      show rowsOk (t ++ [(generateOrderId g.nowMs g.idRand, mkNewOrder od g)])
      exact rowsOk_append_single (rowsOk_of_db_eq h hdb) pending_mem_allowed

lemma statusOk_acceptOrder {s : EngineState} {oid : String} {rid : Int} {pt : Int}
    {now : Nat} {d : Option String} (h : statusOk s) :
    statusOk (acceptOrder s oid rid pt now d).1 := by
  unfold acceptOrder
  split
  · split
    · exact h
    · split
      · apply statusOk_sendToRiderSystem
        exact ⟨h.1, rowsOk_alistSet h.2 preparing_mem_allowed⟩
      · exact h
  · split
    · exact h
    · split
      · exact h
      · split
        · rename_i a t hdb b o hfind hst
          apply statusOk_sendToRiderSystem
          refine ⟨?_, h.2⟩
          show rowsOk (dbUpdate t oid _)
          exact rowsOk_dbUpdate (rowsOk_of_db_eq h hdb) preparing_mem_allowed
        · exact h

lemma statusOk_rejectOrder {s : EngineState} {oid : String} {rid : Int} {reason : String}
    {now : Nat} (h : statusOk s) : statusOk (rejectOrder s oid rid reason now).1 := by
  unfold rejectOrder
  split
  · split
    · exact h
    · split
      · split
        · apply statusOk_initiateRefund
          exact ⟨h.1, rowsOk_alistSet h.2 rejected_mem_allowed⟩
        · exact ⟨h.1, rowsOk_alistSet h.2 rejected_mem_allowed⟩
      · exact h
  · split
    · exact h
    · split
      · exact h
      · split
        · rename_i a t hdb b o hfind hst
          split
          · apply statusOk_initiateRefund
            refine ⟨?_, h.2⟩
            show rowsOk (dbUpdate t oid _)
            exact rowsOk_dbUpdate (rowsOk_of_db_eq h hdb) rejected_mem_allowed
          · refine ⟨?_, h.2⟩
            show rowsOk (dbUpdate t oid _)
            exact rowsOk_dbUpdate (rowsOk_of_db_eq h hdb) rejected_mem_allowed
        · exact h

lemma statusOk_markReadyForPickup {s : EngineState} {oid : String} {rid : Int} {now : Nat}
    (h : statusOk s) : statusOk (markReadyForPickup s oid rid now).1 := by
  unfold markReadyForPickup
  split
  · exact h
  · split
    · exact h
    · split
      · exact statusOk_updateOrderStatus h
      · exact h

lemma statusOk_getOrderById {s : EngineState} {oid : String} (h : statusOk s) :
    statusOk (getOrderById s oid).1 := by
  unfold getOrderById
  split
  · split
    · exact h
    · exact h
  · split
    · split
      · exact ⟨h.1, h.2⟩
      · exact ⟨h.1, h.2⟩
    · split
      · exact h
      · exact h

lemma statusOk_engineStep (op : EngineOp) (s : EngineState) (h : statusOk s) :
    statusOk (engineStep op s) := by
  cases op with
  | create od g => exact statusOk_createOrder h
  | accept oid rid pt now d => exact statusOk_acceptOrder h
  | reject oid rid reason now => exact statusOk_rejectOrder h
  | markReady oid rid now => exact statusOk_markReadyForPickup h
  | updateStatus oid ns ad now => exact statusOk_updateOrderStatus h
  | getById oid => exact statusOk_getOrderById h
  | getForRestaurant rid f lim =>
      show statusOk (getRestaurantOrders s rid f lim).1
      unfold getRestaurantOrders
      split
      · exact h
      · split
        · exact ⟨h.1, h.2⟩
        · exact h
  | getForCustomer cid lim =>
      show statusOk (getCustomerOrders s cid lim).1
      unfold getCustomerOrders
      split
      · exact h
      · split
        · exact h
        · exact h

/-! Section: terminal statuses, code-generator bounds, delivered-route reductions -/

lemma terminal_ne_pending {st : String} (h : st ∈ terminalStatuses) :
    st ≠ "pending_restaurant" := by
  simp only [terminalStatuses, List.mem_cons] at h
  rcases h with rfl | rfl | rfl | h
  · decide
  · decide
  · decide
  · exact absurd h (List.not_mem_nil st)

lemma terminal_ne_preparing {st : String} (h : st ∈ terminalStatuses) :
    st ≠ "preparing" := by
  simp only [terminalStatuses, List.mem_cons] at h
  rcases h with rfl | rfl | rfl | h
  · decide
  · decide
  · decide
  · exact absurd h (List.not_mem_nil st)

lemma ne_empty_of_length_four {w : String} (h : w.length = 4) : w ≠ "" := by
  intro he
  subst he
  exact absurd h (by decide)

lemma base36Char_mem_alphabet : ∀ d, d < 36 → base36Char d ∈ base36UpperAlphabet := by
  decide

lemma base36FracDigits_lt (fuel : Nat) :
    ∀ num, num < 2 ^ 53 → ∀ d ∈ base36FracDigits fuel num, d < 36 := by
  induction fuel with
  | zero =>
      intro num h d hd
      simp [base36FracDigits] at hd
  | succ f ih =>
      intro num h d hd
      cases num with
      | zero => simp [base36FracDigits] at hd
      | succ n =>
          simp only [base36FracDigits, List.mem_cons] at hd
          rcases hd with h1 | h2
          · subst h1
            have hlt : (n + 1) * 36 < 36 * 2 ^ 53 := by
              have h2 : (n + 1) * 36 < 2 ^ 53 * 36 :=
                (Nat.mul_lt_mul_right (by norm_num)).mpr h
              calc (n + 1) * 36 < 2 ^ 53 * 36 := h2
                _ = 36 * 2 ^ 53 := Nat.mul_comm _ _
            exact Nat.div_lt_of_lt_mul hlt
          · exact ih ((n + 1) * 36 % 2 ^ 53) (Nat.mod_lt _ (by positivity)) d h2

lemma generateVerificationCode_length (rand : Nat) :
    (generateVerificationCode rand).length ≤ 4 := by
  show (((base36FracDigits 27 rand).take 4).map base36Char).length ≤ 4
  rw [List.length_map, List.length_take]
  exact min_le_left _ _

lemma generateVerificationCode_chars (rand : Nat) (h : rand < 2 ^ 53) :
    ∀ c ∈ (generateVerificationCode rand).toList, c ∈ base36UpperAlphabet := by
  intro c hc
  have hc2 : c ∈ ((base36FracDigits 27 rand).take 4).map base36Char := hc
  rcases List.mem_map.mp hc2 with ⟨d, hd, rfl⟩
  exact base36Char_mem_alphabet d
    (base36FracDigits_lt 27 rand h d (List.take_subset _ _ hd))

lemma deliveredRoute_mismatch {s : EngineState} {t : List (String × Order)} {oid : String}
    {o : Order} {w : String} {now : Nat}
    (hu : s.useInMemory = false) (hdb : s.db = some t) (hget : alistGet t oid = some o)
    (hw : w ≠ "") (hne : o.verification_code ≠ jsToUpperCase w) :
    deliveredRoute s oid (some w) now = (s, .error .invalidCode) := by
  unfold deliveredRoute
  rw [getOrderById_db_found hu hdb hget]
  simp [formatOrderForClient, hw, hne]

lemma deliveredRoute_match {s : EngineState} {t : List (String × Order)} {oid : String}
    {o : Order} {w : String} {now : Nat}
    (hu : s.useInMemory = false) (hdb : s.db = some t) (hget : alistGet t oid = some o)
    (heq : jsToUpperCase w = o.verification_code) :
    deliveredRoute s oid (some w) now
      = updateOrderStatus s oid "delivered" { delivered_at := some now } now := by
  unfold deliveredRoute
  rw [getOrderById_db_found hu hdb hget]
  simp [formatOrderForClient, heq]

lemma deliveredRoute_falsy {s : EngineState} {t : List (String × Order)} {oid : String}
    {o : Order} {vc : Option String} {now : Nat}
    (hu : s.useInMemory = false) (hdb : s.db = some t) (hget : alistGet t oid = some o)
    (hvc : vc = none ∨ vc = some "") :
    deliveredRoute s oid vc now
      = updateOrderStatus s oid "delivered" { delivered_at := some now } now := by
  unfold deliveredRoute
  rw [getOrderById_db_found hu hdb hget]
  rcases hvc with rfl | rfl
  · rfl
  · simp

lemma delivered_mem_allowed : ("delivered" : String) ∈ allowedStatuses := by decide

lemma payment_cond_iff (o : Order) :
    ((o.payment_method = "online" && o.payment_status = "paid") = true)
      ↔ (o.payment_method = "online" ∧ o.payment_status = "paid") := by
  simp

/-! Section: the claims -/

/-- C1 counterexample: the claim says a terminal status never changes again
under any Engine operation, `updateOrderStatus` included.  On a concrete
store holding a `delivered` order, `updateOrderStatus(orderId, "preparing")`
succeeds and the returned order has status `preparing`: the terminal status
was overwritten. -/
theorem c1_terminal_not_immutable_cex :
    ((updateOrderStatus ⟨some [("MYE-1-AAAA", { exOrder with status := "delivered" })], [], false⟩
          "MYE-1-AAAA" "preparing" {} 9).2.toOption.map (fun co => co.status)) = some "preparing"
      ∧ ({ exOrder with status := "delivered" } : Order).status ∈ terminalStatuses := by
  constructor
  · rfl
  · decide

/-- C1 (amended): every Engine operation preserves the invariant that all
stored statuses lie in the nine-member recognized set, and `acceptOrder`,
`rejectOrder` and `markReadyForPickup` leave an order in a terminal status
(indeed its whole state) untouched; `updateOrderStatus`, however, performs
no current-status check and can overwrite a terminal status with any
recognized status (see the counterexample). -/
theorem c1_status_set_invariant_amended (s : EngineState) (h : statusOk s) :
    (∀ op, statusOk (engineStep op s)) ∧
    (∀ oid rid pt now d o, acceptLookup s oid rid = some o →
        o.status ∈ terminalStatuses → (acceptOrder s oid rid pt now d).1 = s) ∧
    (∀ oid rid reason now o, acceptLookup s oid rid = some o →
        o.status ∈ terminalStatuses → (rejectOrder s oid rid reason now).1 = s) ∧
    (∀ t oid rid now o, s.db = some t → dbFindOwned t oid rid = some o →
        o.status ∈ terminalStatuses → (markReadyForPickup s oid rid now).1 = s) := by
  refine ⟨fun op => statusOk_engineStep op s h, ?_, ?_, ?_⟩
  · intro oid rid pt now d o hf hterm
    rw [acceptOrder_not_pending hf (terminal_ne_pending hterm)]
  · intro oid rid reason now o hf hterm
    rw [rejectOrder_not_pending hf (terminal_ne_pending hterm)]
  · intro t oid rid now o hdb hf hterm
    rw [markReadyForPickup_not_preparing hdb hf (terminal_ne_preparing hterm)]

/-- Witness for the amended C1 at a concrete store and operation. -/
theorem c1_status_set_invariant_amended_witness :
    statusOk (engineStep (.updateStatus "MYE-1-AAAA" "preparing" {} 9)
        ⟨some [("MYE-1-AAAA", exOrder)], [], false⟩) :=
  (c1_status_set_invariant_amended _ (by unfold statusOk rowsOk dbRows; decide)).1 _

/-- C2: on an order whose current status is not `pending_restaurant` (found
by id in the in-memory branch, by id and owner in the table branch),
`acceptOrder` fails with `InvalidTransition` and the engine state is
returned exactly unchanged — no field of any stored order is written. -/
theorem c2_acceptOrder_invalid_transition (s : EngineState) (oid : String) (rid : Int)
    (pt : Int) (now : Nat) (d : Option String) (o : Order)
    (hfind : acceptLookup s oid rid = some o)
    (hst : o.status ≠ "pending_restaurant") :
    acceptOrder s oid rid pt now d = (s, .error (.invalidTransition o.status), 0) :=
  acceptOrder_not_pending hfind hst

/-- Witness for C2: accepting a `preparing` order fails and changes nothing. -/
theorem c2_acceptOrder_invalid_transition_witness :
    acceptOrder ⟨none, [("MYE-1-AAAA", { exOrder with status := "preparing" })], true⟩
        "MYE-1-AAAA" 1 20 5 none
      = (⟨none, [("MYE-1-AAAA", { exOrder with status := "preparing" })], true⟩,
          .error (.invalidTransition "preparing"), 0) :=
  c2_acceptOrder_invalid_transition
    ⟨none, [("MYE-1-AAAA", { exOrder with status := "preparing" })], true⟩
    "MYE-1-AAAA" 1 20 5 none { exOrder with status := "preparing" } rfl (by decide)

/-- C3 counterexample: the claim says a restaurant-id mismatch fails with
`NotFound` in the in-memory path too.  On a concrete in-memory store whose
only order is owned by restaurant 1, `acceptOrder` called by restaurant 2
succeeds (the in-memory branch looks the order up by id alone and never
compares `restaurant_id`). -/
theorem c3_memory_path_ignores_ownership_cex :
    (acceptOrder ⟨none, [("MYE-1-AAAA", exOrder)], true⟩ "MYE-1-AAAA" 2 20 5 none).2
        = (.ok (formatOrderForClient (acceptUpdated exOrder 20 5)), 1)
      ∧ exOrder.restaurant_id ≠ 2 := by
  constructor
  · rfl
  · decide

/-- C3 (amended): `acceptOrder` fails with `NotFound` (modifying nothing)
when no order with the id exists — in both storage paths — and, in the
persistent path only, when the order is not owned by the supplied
restaurant id; the in-memory fallback path checks existence only, and
accepts an existing pending order whatever restaurant id is supplied. -/
theorem c3_acceptOrder_not_found_amended (s : EngineState) (oid : String) (rid : Int)
    (pt : Int) (now : Nat) (d : Option String) :
    (s.useInMemory = true → alistGet s.mem oid = none →
        acceptOrder s oid rid pt now d = (s, .error .notFound, 0)) ∧
    (∀ t, s.useInMemory = false → s.db = some t → dbFindOwned t oid rid = none →
        acceptOrder s oid rid pt now d = (s, .error .notFound, 0)) ∧
    (s.useInMemory = false → s.db = none →
        acceptOrder s oid rid pt now d = (s, .error .notFound, 0)) ∧
    (∀ o, s.useInMemory = true → alistGet s.mem oid = some o →
        o.status = "pending_restaurant" →
        (acceptOrder s oid rid pt now d).2
          = (.ok (formatOrderForClient (acceptUpdated o pt now)), 1)) := by
  refine ⟨?_, ?_, ?_, ?_⟩
  · intro hu hg
    exact acceptOrder_mem_missing hu hg
  · intro t hu hdb hf
    exact acceptOrder_db_missing hu hdb hf
  · intro hu hdb
    simp [acceptOrder, hu, hdb]
  · intro o hu hg hst
    exact acceptOrder_pending_mem hu hg hst

/-- Witness for the amended C3: a missing id fails with `NotFound`. -/
theorem c3_acceptOrder_not_found_amended_witness :
    acceptOrder ⟨none, [], true⟩ "NOPE" 1 20 5 none
      = (⟨none, [], true⟩, .error .notFound, 0) :=
  (c3_acceptOrder_not_found_amended _ _ _ _ _ _).1 rfl rfl

/-- C4: `updateOrderStatus` fails with `InvalidStatus` — writing nothing —
for a status outside the nine-member set, and for any status inside the
set it writes that status to an existing row whatever the current status
is: the row written is `statusUpdatedRow`, whose status field is exactly
the requested one, with no reachability check against the state machine. -/
theorem c4_updateOrderStatus_no_adjacency_check (s : EngineState) (oid ns : String)
    (ad : AdditionalData) (now : Nat) :
    (ns ∉ allowedStatuses →
        updateOrderStatus s oid ns ad now = (s, .error (.invalidStatus ns))) ∧
    (ns ∈ allowedStatuses → ∀ t o, s.db = some t → alistGet t oid = some o →
        updateOrderStatus s oid ns ad now
            = (⟨some (dbUpdate t oid (statusUpdatedRow o ns ad now)), s.mem, s.useInMemory⟩,
                .ok (formatOrderForClient (statusUpdatedRow o ns ad now)))
          ∧ (statusUpdatedRow o ns ad now).status = ns) := by
  constructor
  · intro hbad
    exact updateOrderStatus_invalid hbad
  · intro hns t o hdb hget
    exact ⟨updateOrderStatus_found hns hdb hget, statusUpdatedRow_status o ns ad now⟩

/-- Witness for C4: an unrecognized status is rejected without a write. -/
theorem c4_updateOrderStatus_no_adjacency_check_witness :
    updateOrderStatus ⟨some [("MYE-1-AAAA", exOrder)], [], false⟩ "MYE-1-AAAA" "bogus" {} 7
      = (⟨some [("MYE-1-AAAA", exOrder)], [], false⟩, .error (.invalidStatus "bogus")) :=
  (c4_updateOrderStatus_no_adjacency_check _ _ _ _ _).1 (by decide)

/-- C5 counterexample: the claim says the verification code is exactly 4
characters from an unambiguous alphabet.  With the random draw
`0.6875 = 6192449487634432/2^53` the created order carries the verification
code `"OR"`: only 2 characters long, and containing the ambiguous letter
`O` — so neither "exactly 4 characters" nor "unambiguous alphabet" holds. -/
theorem c5_verification_code_cex :
    ((createOrder ⟨some [], [], false⟩ exOrderData exGen).2.toOption.map
        (fun co => co.verificationCode)) = some "OR"
      ∧ ("OR" : String).length = 2 ∧ ("O" : String).toList ⊆ ("OR" : String).toList := by
  refine ⟨rfl, rfl, ?_⟩
  decide

/-- C5 (amended): `createOrder` always returns the client-shaped new order:
its status is `pending_restaurant`, its verification code has AT MOST 4
characters drawn from the full uppercase base-36 alphabet `0-9A-Z` (which
includes ambiguous characters, and can be shorter than 4 when the base-36
expansion of the random draw terminates early), and its order id is
`MYE-` + the base-36 clock + `-` + the random suffix. -/
theorem c5_createOrder_amended (s : EngineState) (od : OrderData) (g : GenInputs)
    (hcode : g.codeRand < 2 ^ 53) :
    (createOrder s od g).2 = .ok (formatOrderForClient (mkNewOrder od g)) ∧
    (formatOrderForClient (mkNewOrder od g)).status = "pending_restaurant" ∧
    (formatOrderForClient (mkNewOrder od g)).verificationCode.length ≤ 4 ∧
    (∀ c ∈ (formatOrderForClient (mkNewOrder od g)).verificationCode.toList,
        c ∈ base36UpperAlphabet) ∧
    (formatOrderForClient (mkNewOrder od g)).orderId
      = "MYE-" ++ natToBase36 g.nowMs ++ "-"
          ++ String.mk (((base36FracDigits 27 g.idRand).take 4).map base36Char) := by
  refine ⟨createOrder_result s od g, rfl, generateVerificationCode_length g.codeRand,
    ?_, rfl⟩
  exact generateVerificationCode_chars g.codeRand hcode

/-- Witness for the amended C5 at the concrete fixture inputs. -/
theorem c5_createOrder_amended_witness :
    (createOrder ⟨some [], [], false⟩ exOrderData exGen).2
      = .ok (formatOrderForClient (mkNewOrder exOrderData exGen)) :=
  (c5_createOrder_amended _ _ _ (by decide)).1

/-- C6: in the delivered webhook, a supplied code is uppercased and
compared to the stored (uppercase) code, so any letter-casing of the stored
code passes and the order is written as `delivered`; a 4-character string
that does not match case-insensitively answers `InvalidCode` and the engine
state — the status of the order included — is exactly unchanged. -/
theorem c6_delivered_code_case_insensitive (s : EngineState) (t : List (String × Order))
    (oid : String) (o : Order) (now : Nat)
    (hu : s.useInMemory = false) (hdb : s.db = some t) (hget : alistGet t oid = some o) :
    (∀ w, jsToUpperCase w = o.verification_code →
        deliveredRoute s oid (some w) now
            = (⟨some (dbUpdate t oid (statusUpdatedRow o "delivered"
                  { delivered_at := some now } now)), s.mem, s.useInMemory⟩,
                .ok (formatOrderForClient (statusUpdatedRow o "delivered"
                  { delivered_at := some now } now)))
          ∧ (statusUpdatedRow o "delivered" { delivered_at := some now } now).status
              = "delivered") ∧
    (∀ w, w.length = 4 → jsToUpperCase w ≠ o.verification_code →
        deliveredRoute s oid (some w) now = (s, .error .invalidCode)) := by
  constructor
  · intro w heq
    rw [deliveredRoute_match hu hdb hget heq,
        updateOrderStatus_found delivered_mem_allowed hdb hget]
    exact ⟨rfl, statusUpdatedRow_status _ _ _ _⟩
  · intro w hlen hne
    exact deliveredRoute_mismatch hu hdb hget (ne_empty_of_length_four hlen) (Ne.symm hne)

/-- Witness for C6: the stored code `AB12` supplied as `ab12` delivers. -/
theorem c6_delivered_code_case_insensitive_witness :
    deliveredRoute ⟨some [("MYE-1-AAAA", exOrder)], [], false⟩ "MYE-1-AAAA" (some "ab12") 9
      = (⟨some (dbUpdate [("MYE-1-AAAA", exOrder)] "MYE-1-AAAA"
            (statusUpdatedRow exOrder "delivered" { delivered_at := some 9 } 9)), [], false⟩,
          .ok (formatOrderForClient
            (statusUpdatedRow exOrder "delivered" { delivered_at := some 9 } 9))) :=
  ((c6_delivered_code_case_insensitive
      ⟨some [("MYE-1-AAAA", exOrder)], [], false⟩ [("MYE-1-AAAA", exOrder)]
      "MYE-1-AAAA" exOrder 9 rfl rfl rfl).1 "ab12" (by decide)).1

/-- C7: on every successful accept — in either storage branch and whatever
the outcome `d` of the dispatch HTTP call, success or failure — the
dispatch adapter is invoked exactly once, the call still returns success,
and the returned order is in `preparing` with `prep_time` and `accepted_at`
set. -/
theorem c7_accept_dispatch_once_best_effort (s : EngineState) (oid : String) (rid : Int)
    (pt : Int) (now : Nat) (o : Order)
    (hfind : acceptLookup s oid rid = some o)
    (hst : o.status = "pending_restaurant") :
    ∀ d, (acceptOrder s oid rid pt now d).2.2 = 1
      ∧ (acceptOrder s oid rid pt now d).2.1
          = .ok (formatOrderForClient (acceptUpdated o pt now))
      ∧ (formatOrderForClient (acceptUpdated o pt now)).status = "preparing"
      ∧ (formatOrderForClient (acceptUpdated o pt now)).prepTime = some pt
      ∧ (formatOrderForClient (acceptUpdated o pt now)).acceptedAt = some now := by
  intro d
  unfold acceptLookup at hfind
  by_cases hu : s.useInMemory = true
  · rw [if_pos hu] at hfind
    have h2 := @acceptOrder_pending_mem s oid rid pt now d o hu hfind hst
    refine ⟨?_, ?_, rfl, rfl, rfl⟩
    · rw [h2]
    · rw [h2]
  · have hb : s.useInMemory = false := by simpa using hu
    rw [hb] at hfind
    simp only [Bool.false_eq_true, if_false] at hfind
    cases hdb : s.db with
    | none => rw [hdb] at hfind; simp at hfind
    | some t =>
        rw [hdb] at hfind
        have hf2 : dbFindOwned t oid rid = some o := hfind
        have h2 := @acceptOrder_pending_db s t oid rid pt now d o hb hdb hf2 hst
        refine ⟨?_, ?_, rfl, rfl, rfl⟩
        · rw [h2]
        · rw [h2]

/-- Witness for C7: accepting the pending fixture order invokes the
dispatch adapter exactly once even though the dispatch call fails. -/
theorem c7_accept_dispatch_once_best_effort_witness :
    (acceptOrder ⟨none, [("MYE-1-AAAA", exOrder)], true⟩ "MYE-1-AAAA" 1 20 5 none).2.2 = 1 :=
  ((c7_accept_dispatch_once_best_effort ⟨none, [("MYE-1-AAAA", exOrder)], true⟩
      "MYE-1-AAAA" 1 20 5 exOrder rfl rfl) none).1

/-- C8 counterexample: the claim says the refund-initiation side effect
records refund status, amount and reason on the order exactly when payment
is online and already paid.  In the in-memory fallback, rejecting the
paid-online pending fixture succeeds — `initiateRefund` IS called — but its
Supabase update silently no-ops against the absent table, so the stored Map
row keeps `refund_status = none`: nothing is recorded on the order. -/
theorem c8_memory_refund_not_recorded_cex :
    (rejectOrder ⟨none, [("MYE-1-AAAA", exOrderPaid)], true⟩ "MYE-1-AAAA" 1 "no capacity" 5).2
        = .ok (formatOrderForClient (rejectUpdated exOrderPaid "no capacity" 5))
      ∧ exOrderPaid.payment_method = "online" ∧ exOrderPaid.payment_status = "paid"
      ∧ ((alistGet (rejectOrder ⟨none, [("MYE-1-AAAA", exOrderPaid)], true⟩
              "MYE-1-AAAA" 1 "no capacity" 5).1.mem "MYE-1-AAAA").map
            (fun o => o.refund_status)) = some none := by
  refine ⟨rfl, rfl, rfl, rfl⟩

/-- C8 (amended): in either storage branch, rejecting a found order fails
with `InvalidTransition` unless it is `pending_restaurant`, and on success
the stored order carries status `rejected`, the supplied reason and the
rejection timestamp.  The refund-recording side effect writes only the
primary datastore: in the persistent path the refund fields (`initiated`,
amount = order total, the reason) land on the row exactly when the
pre-update order had `payment_method = online` and `payment_status = paid`
— otherwise the refund columns are exactly what they were before — while in
the in-memory fallback path the refund fields of the stored Map row are
never changed, a paid online order included (see the counterexample). -/
theorem c8_rejectOrder_refund_amended (s : EngineState) (oid : String) (rid : Int)
    (reason : String) (now : Nat) :
    (∀ t o, s.useInMemory = false → s.db = some t → dbFindOwned t oid rid = some o →
        (o.status ≠ "pending_restaurant" →
            rejectOrder s oid rid reason now = (s, .error (.invalidTransition o.status))) ∧
        (o.status = "pending_restaurant" →
            (rejectOrder s oid rid reason now).2
                = .ok (formatOrderForClient (rejectUpdated o reason now)) ∧
            ∃ u, (rejectOrder s oid rid reason now).1.db = some u ∧
              ∃ o3, alistGet u oid = some o3 ∧
                o3.status = "rejected" ∧ o3.rejection_reason = some reason
                  ∧ o3.rejected_at = some now ∧
                ((o.payment_method = "online" ∧ o.payment_status = "paid" →
                    o3.refund_status = some "initiated" ∧ o3.refund_amount = some o.total
                      ∧ o3.refund_reason = some reason) ∧
                 (¬(o.payment_method = "online" ∧ o.payment_status = "paid") →
                    o3.refund_status = o.refund_status ∧ o3.refund_amount = o.refund_amount
                      ∧ o3.refund_reason = o.refund_reason)))) ∧
    (∀ o, s.useInMemory = true → alistGet s.mem oid = some o →
        (o.status ≠ "pending_restaurant" →
            rejectOrder s oid rid reason now = (s, .error (.invalidTransition o.status))) ∧
        (o.status = "pending_restaurant" →
            (rejectOrder s oid rid reason now).2
                = .ok (formatOrderForClient (rejectUpdated o reason now)) ∧
            (rejectOrder s oid rid reason now).1.mem
                = alistSet s.mem oid (rejectUpdated o reason now) ∧
            alistGet ((rejectOrder s oid rid reason now).1.mem) oid
                = some (rejectUpdated o reason now) ∧
            (rejectUpdated o reason now).refund_status = o.refund_status ∧
            (rejectUpdated o reason now).refund_amount = o.refund_amount ∧
            (rejectUpdated o reason now).refund_reason = o.refund_reason)) := by
  constructor
  · intro t o hu hdb hfind
    have hlook : acceptLookup s oid rid = some o := by
      unfold acceptLookup
      rw [hu]
      simp only [Bool.false_eq_true, if_false]
      rw [hdb]
      exact hfind
    constructor
    · intro hst
      exact rejectOrder_not_pending hlook hst
    · intro hst
      have hr := @rejectOrder_pending_db s t oid rid reason now o hu hdb hfind hst
      have hsome1 : (alistGet t oid).isSome := alistGet_isSome_of_dbFindOwned t oid rid o hfind
      have hget1 : alistGet (dbUpdate t oid (rejectUpdated o reason now)) oid
          = some (rejectUpdated o reason now) := alistGet_dbUpdate_self t oid _ hsome1
      by_cases hpay : o.payment_method = "online" ∧ o.payment_status = "paid"
      · have hb : (o.payment_method = "online" && o.payment_status = "paid") = true :=
          (payment_cond_iff o).mpr hpay
        rw [hr, if_pos hb, initiateRefund_db rfl hget1]
        refine ⟨rfl, _, rfl, _, alistGet_dbUpdate_self _ _ _ ?_, rfl, rfl, rfl, ?_, ?_⟩
        · rw [hget1]
          rfl
        · intro _
          exact ⟨rfl, rfl, rfl⟩
        · intro hn
          exact absurd hpay hn
      · have hb : ¬ ((o.payment_method = "online" && o.payment_status = "paid") = true) :=
          fun hc => hpay ((payment_cond_iff o).mp hc)
        rw [hr, if_neg hb]
        refine ⟨rfl, _, rfl, rejectUpdated o reason now, hget1, rfl, rfl, rfl, ?_, ?_⟩
        · intro hc
          exact absurd hc hpay
        · intro _
          exact ⟨rfl, rfl, rfl⟩
  · intro o hu hget
    have hlook : acceptLookup s oid rid = some o := by
      unfold acceptLookup
      rw [if_pos hu]
      exact hget
    constructor
    · intro hst
      exact rejectOrder_not_pending hlook hst
    · intro hst
      have hr := @rejectOrder_pending_mem s oid rid reason now o hu hget hst
      have hmem : (rejectOrder s oid rid reason now).1.mem
          = alistSet s.mem oid (rejectUpdated o reason now) := by
        rw [hr]
        split
        · rw [initiateRefund_mem]
        · rfl
      refine ⟨?_, hmem, ?_, rfl, rfl, rfl⟩
      · rw [hr]
      · rw [hmem]
        exact alistGet_alistSet_self _ _ _

/-- Witness for the amended C8: rejecting the paid-online pending fixture
order on the persistent path with reason "no capacity" succeeds and returns
the rejected order. -/
theorem c8_rejectOrder_refund_amended_witness :
    (rejectOrder ⟨some [("MYE-1-AAAA", exOrderPaid)], [], false⟩
        "MYE-1-AAAA" 1 "no capacity" 5).2
      = .ok (formatOrderForClient (rejectUpdated exOrderPaid "no capacity" 5)) :=
  (((c8_rejectOrder_refund_amended
      ⟨some [("MYE-1-AAAA", exOrderPaid)], [], false⟩
      "MYE-1-AAAA" 1 "no capacity" 5).1 [("MYE-1-AAAA", exOrderPaid)] exOrderPaid
      rfl rfl rfl).2 rfl).1

/-- C9 counterexample: the claim says that once the fallback is active
every Engine operation, `updateOrderStatus` included, reads and writes the
in-memory store.  On a concrete state with the fallback active, the table
absent and the order present in the Map, `updateOrderStatus` throws a
storage error and leaves the state — the Map included — untouched: it
addressed the primary datastore, not the ephemeral store. -/
theorem c9_updateOrderStatus_skips_memory_cex :
    updateOrderStatus ⟨none, [("MYE-1-AAAA", exOrder)], true⟩ "MYE-1-AAAA" "preparing" {} 7
        = (⟨none, [("MYE-1-AAAA", exOrder)], true⟩, .error (.storeError "update"))
      ∧ alistGet [("MYE-1-AAAA", exOrder)] "MYE-1-AAAA" = some exOrder := by
  constructor
  · rfl
  · rfl

/-- C9 (amended): once `useInMemory` is set it stays set across every
Engine operation, and `createOrder`, `acceptOrder`, `rejectOrder`,
`getOrderById`, `getRestaurantOrders` and `getCustomerOrders` thereafter
read and write the in-process Map keyed by order id; `markReadyForPickup`
and `updateOrderStatus`, however, have no fallback branch: they always
address the primary datastore and fail when it is unavailable (see the
counterexample). -/
theorem c9_fallback_sticky_amended (s : EngineState) (h : s.useInMemory = true) :
    (∀ op, (engineStep op s).useInMemory = true) ∧
    (∀ od g, (createOrder s od g).1
        = ⟨s.db, alistSet s.mem (generateOrderId g.nowMs g.idRand) (mkNewOrder od g),
            s.useInMemory⟩) ∧
    (∀ oid rid pt now d, alistGet s.mem oid = none →
        acceptOrder s oid rid pt now d = (s, .error .notFound, 0)) ∧
    (∀ oid rid reason now, alistGet s.mem oid = none →
        rejectOrder s oid rid reason now = (s, .error .notFound)) ∧
    (∀ oid, alistGet s.mem oid = none → getOrderById s oid = (s, .error .notFound)) ∧
    (∀ rid f lim, getRestaurantOrders s rid f lim
        = (s, .ok (restaurantOrdersFrom s.mem rid f lim))) ∧
    (∀ cid lim, getCustomerOrders s cid lim
        = (s, .ok (customerOrdersFrom s.mem cid lim))) ∧
    (s.db = none → ∀ oid ns ad now, ns ∈ allowedStatuses →
        updateOrderStatus s oid ns ad now = (s, .error (.storeError "update"))) ∧
    (s.db = none → ∀ oid rid now,
        markReadyForPickup s oid rid now = (s, .error .notFound)) := by
  refine ⟨fun op => engineStep_flag_sticky op s h, ?_, ?_, ?_, ?_, ?_, ?_, ?_, ?_⟩
  · intro od g
    exact createOrder_mem s od g h
  · intro oid rid pt now d hg
    exact acceptOrder_mem_missing h hg
  · intro oid rid reason now hg
    exact rejectOrder_mem_missing h hg
  · intro oid hg
    exact getOrderById_mem_missing h hg
  · intro rid f lim
    simp [getRestaurantOrders, h]
  · intro cid lim
    simp [getCustomerOrders, h]
  · intro hdb oid ns ad now hns
    exact updateOrderStatus_noTable hns hdb
  · intro hdb oid rid now
    exact markReadyForPickup_noTable hdb

/-- Witness for the amended C9 stickiness conjunct at a concrete state. -/
theorem c9_fallback_sticky_amended_witness :
    (engineStep (.getById "X") ⟨none, [("MYE-1-AAAA", exOrder)], true⟩).useInMemory = true :=
  (c9_fallback_sticky_amended _ rfl).1 _

/-- C10: a missing or empty (falsy) `verificationCode` in the delivered
webhook body skips the code comparison entirely: the order is written as
`delivered` whatever its stored code is. -/
theorem c10_delivered_falsy_code_skips_check (s : EngineState) (t : List (String × Order))
    (oid : String) (o : Order) (vc : Option String) (now : Nat)
    (hu : s.useInMemory = false) (hdb : s.db = some t) (hget : alistGet t oid = some o)
    (hvc : vc = none ∨ vc = some "") :
    deliveredRoute s oid vc now
        = (⟨some (dbUpdate t oid (statusUpdatedRow o "delivered"
              { delivered_at := some now } now)), s.mem, s.useInMemory⟩,
            .ok (formatOrderForClient (statusUpdatedRow o "delivered"
              { delivered_at := some now } now)))
      ∧ (statusUpdatedRow o "delivered" { delivered_at := some now } now).status
          = "delivered" := by
  rw [deliveredRoute_falsy hu hdb hget hvc,
      updateOrderStatus_found delivered_mem_allowed hdb hget]
  exact ⟨rfl, statusUpdatedRow_status _ _ _ _⟩

/-- Witness for C10: no code supplied, order delivered anyway. -/
theorem c10_delivered_falsy_code_skips_check_witness :
    deliveredRoute ⟨some [("MYE-1-AAAA", exOrder)], [], false⟩ "MYE-1-AAAA" none 9
      = (⟨some (dbUpdate [("MYE-1-AAAA", exOrder)] "MYE-1-AAAA"
            (statusUpdatedRow exOrder "delivered" { delivered_at := some 9 } 9)), [], false⟩,
          .ok (formatOrderForClient
            (statusUpdatedRow exOrder "delivered" { delivered_at := some 9 } 9))) :=
  (c10_delivered_falsy_code_skips_check ⟨some [("MYE-1-AAAA", exOrder)], [], false⟩
      [("MYE-1-AAAA", exOrder)] "MYE-1-AAAA" exOrder none 9 rfl rfl rfl (Or.inl rfl)).1
